import Mathlib

set_option maxRecDepth 4000

/-!
Shallow embedding of the report-rendering core of the restudCLI repository
(`src/restud/render.py`, `src/restud/render_jinja2.py`, and the legacy copy
`.config/restud/DCAS_scheme.py`), together with theorems settling the
specification's claims about it.

Python values are modelled as plain Lean data: Python strings as `String`,
Python `None` through `Option`, the `Union[List[str], str]` comment shape as
`List String ⊕ String`, dictionaries as functions into `Option`.  Fallible
code returns `Except` or `Option`; a Python exception escaping a function is
an `Except.error`, which by construction carries no partial output.
-/

namespace Restud

/-- Python exceptions that the embedded code paths can raise:
`attributeError` for an attribute access on an object lacking the attribute
(`rule.name` on a `DCASRuleItemV2`), `typeError` for an unsupported
comparison (`None >= 2`). -/
inductive PyExn where
  | attributeError
  | typeError
deriving DecidableEq, Repr

/-- ResponseType enum from `src/restud/render.py`: `yes | no | maybe | na`. -/
inductive ResponseType where
  | yes
  | no
  | maybe
  | na
deriving DecidableEq, Repr

/-- The `Optional[Union[List[str], str]]` comment field of a DCAS rule item:
`none` is Python `None`, `Sum.inl` a list of comment strings, `Sum.inr` a
single scalar comment string. -/
abbrev PyComment := Option (List String ⊕ String)

/-- One validated DCAS rule item from `src/restud/render.py`.  The field
`name` is `some _` when the raw item validated as `DCASRuleItemV3` (which has
a required `name: str`) and `none` when it validated as `DCASRuleItemV2`
(which has no `name` field at all, so reading `rule.name` raises
`AttributeError`). -/
structure DCASRule where
  name : Option String
  description : String
  answer : ResponseType
  comment : PyComment
  dcas_reference : String
deriving DecidableEq, Repr

/-- The per-rule body of the requests loop in
`ReportTemplate.to_template_format` (`src/restud/render.py` lines 80-87):
a list comment emits one formatted line per element; a scalar comment emits
one line when truthy (non-empty) and nothing otherwise; `None` emits
nothing.  Each line is `f"{comment} ({rule.dcas_reference})"`. -/
def ruleLines (rule : DCASRule) : List String :=
  match rule.comment with
  | some (.inl comments) =>
      comments.map (fun comment => comment ++ " (" ++ rule.dcas_reference ++ ")")
  | some (.inr comment) =>
      if comment = "" then [] else [comment ++ " (" ++ rule.dcas_reference ++ ")"]
  | none => []

/-- The requests loop of `ReportTemplate.to_template_format`
(`src/restud/render.py` lines 69-89).  A rule with `answer == "yes"` is
skipped, as is a rule with `answer == "na"` and `comment is None`.  Every
remaining rule first passes through the debug-logging statement
`f.write(f"DEBUG: rule.name={rule.name}, ...")` (lines 76-78), which reads
`rule.name`; when the rule validated as `DCASRuleItemV2` that attribute does
not exist and the loop raises `AttributeError` instead of returning. -/
def toTemplateRequests : List DCASRule → Except PyExn (List String)
  | [] => .ok []
  | rule :: rest =>
    if rule.answer = ResponseType.yes then
      toTemplateRequests rest
    else if rule.answer = ResponseType.na ∧ rule.comment = none then
      toTemplateRequests rest
    else
      match rule.name with
      | none => .error .attributeError
      | some _ => (toTemplateRequests rest).map (fun reqs => ruleLines rule ++ reqs)

/-- A rule is skipped by the requests loop exactly when its answer is `yes`,
or its answer is `na` and its comment is Python `None`. -/
def ruleSkipped (rule : DCASRule) : Bool :=
  decide (rule.answer = ResponseType.yes) ||
    (decide (rule.answer = ResponseType.na) && decide (rule.comment = none))

/-- The comments a rule carries, as a plain list: all elements of a list
comment, a singleton for a truthy (non-empty) scalar comment, nothing for
`None` or an empty scalar. -/
def pyComments : PyComment → List String
  | some (.inl comments) => comments
  | some (.inr comment) => if comment = "" then [] else [comment]
  | none => []

theorem ruleLines_eq_map_pyComments (rule : DCASRule) :
    ruleLines rule =
      (pyComments rule.comment).map
        (fun comment => comment ++ " (" ++ rule.dcas_reference ++ ")") := by
  unfold ruleLines pyComments
  rcases rule.comment with _ | (comments | comment)
  · rfl
  · rfl
  · by_cases hc : comment = "" <;> simp [hc]

theorem ruleSkipped_false_iff (rule : DCASRule) :
    ruleSkipped rule = false ↔
      ¬ rule.answer = ResponseType.yes ∧
        ¬ (rule.answer = ResponseType.na ∧ rule.comment = none) := by
  simp [ruleSkipped, Decidable.not_and_iff_or_not]

/-- Claim C1: for every report document, the derived requests list contains
no line from a rule whose verdict is yes; no line from a rule whose verdict
is not_applicable (`na`) with no comment; and for every remaining rule that
carries comments, exactly one line per comment, each formatted as the
comment text followed by a space and the rule's reference in parentheses. -/
theorem C1_requests_shape (rules : List DCASRule) (reqs : List String)
    (h : toTemplateRequests rules = .ok reqs) :
    reqs = rules.flatMap (fun r =>
      if ruleSkipped r then []
      else (pyComments r.comment).map
        (fun comment => comment ++ " (" ++ r.dcas_reference ++ ")")) := by
  induction rules generalizing reqs with
  | nil =>
    simp [toTemplateRequests] at h
    simp [← h]
  | cons rule rest ih =>
    rw [toTemplateRequests] at h
    by_cases h1 : rule.answer = ResponseType.yes
    · rw [if_pos h1] at h
      have hs : ruleSkipped rule = true := by simp [ruleSkipped, h1]
      simp [hs, ih reqs h]
    · rw [if_neg h1] at h
      by_cases h2 : rule.answer = ResponseType.na ∧ rule.comment = none
      · rw [if_pos h2] at h
        have hs : ruleSkipped rule = true := by simp [ruleSkipped, h2.1, h2.2]
        simp [hs, ih reqs h]
      · rw [if_neg h2] at h
        have hs : ruleSkipped rule = false := by
          rw [ruleSkipped_false_iff]
          exact ⟨h1, h2⟩
        rcases hn : rule.name with _ | n
        · rw [hn] at h
          simp at h
        · rw [hn] at h
          rcases ht : toTemplateRequests rest with e | tail

          · rw [ht] at h
            simp [Except.map] at h
          · rw [ht] at h
            simp only [Except.map, Except.ok.injEq] at h
            subst h
            simp [hs, ruleLines_eq_map_pyComments, ih tail ht]

def ruleYesW : DCASRule :=
  ⟨some "Rule 1", "first rule", ResponseType.yes, some (.inr "already fine"), "DCAS-1"⟩

def ruleNaW : DCASRule :=
  ⟨some "Rule 2", "second rule", ResponseType.na, none, "DCAS-2"⟩

def ruleNoW : DCASRule :=
  ⟨some "Rule 3", "third rule", ResponseType.no, some (.inl ["fix a", "fix b"]), "DCAS-3"⟩

def ruleMaybeW : DCASRule :=
  ⟨some "Rule 4", "fourth rule", ResponseType.maybe, some (.inr "check c"), "DCAS-4"⟩

/-- Witness for C1 at a concrete document: a yes rule and a commentless na
rule contribute nothing, a no rule with two comments contributes two lines,
a maybe rule with one scalar comment contributes one line. -/
theorem C1_requests_shape_witness :
    toTemplateRequests [ruleYesW, ruleNaW, ruleNoW, ruleMaybeW] =
      .ok ["fix a (DCAS-3)", "fix b (DCAS-3)", "check c (DCAS-4)"] ∧
    ["fix a (DCAS-3)", "fix b (DCAS-3)", "check c (DCAS-4)"] =
      [ruleYesW, ruleNaW, ruleNoW, ruleMaybeW].flatMap (fun r =>
        if ruleSkipped r then []
        else (pyComments r.comment).map
          (fun comment => comment ++ " (" ++ r.dcas_reference ++ ")")) :=
  ⟨rfl, C1_requests_shape _ _ rfl⟩

/-- Claim C10: for every version-2-or-greater document containing at least
one rule validated without a name field (the V2 rule shape) whose answer is
neither yes nor na-with-no-comment, the derivation does not return
normally: the debug-logging step reads `rule.name`, absent on such rules,
so the loop raises `AttributeError` instead of producing the requests. -/
theorem C10_nameless_rule_raises (rules : List DCASRule)
    (h : ∃ r ∈ rules, r.name = none ∧ ruleSkipped r = false) :
    toTemplateRequests rules = .error PyExn.attributeError := by
  induction rules with
  | nil => simp at h
  | cons rule rest ih =>
    rcases h with ⟨r, hr, hname, hskip⟩
    rw [toTemplateRequests]
    rcases List.mem_cons.mp hr with rfl | hmem
    · rcases (ruleSkipped_false_iff r).mp hskip with ⟨h1, h2⟩
      rw [if_neg h1, if_neg h2, hname]
    · have htail : toTemplateRequests rest = .error PyExn.attributeError :=
        ih ⟨r, hmem, hname, hskip⟩
      by_cases h1 : rule.answer = ResponseType.yes
      · rw [if_pos h1]; exact htail
      · rw [if_neg h1]
        by_cases h2 : rule.answer = ResponseType.na ∧ rule.comment = none
        · rw [if_pos h2]; exact htail
        · rw [if_neg h2]
          rcases hn : rule.name with _ | n
          · rfl
          · rw [htail]; rfl

def namelessNoRule : DCASRule :=
  ⟨none, "nameless rule", ResponseType.no, some (.inr "needs work"), "DCAS-7"⟩

/-- Witness for C10: a document whose second rule is a V2-shaped (nameless)
rule with a non-yes answer makes the derivation raise. -/
theorem C10_nameless_rule_raises_witness :
    toTemplateRequests [ruleYesW, namelessNoRule] = .error PyExn.attributeError :=
  C10_nameless_rule_raises _ ⟨namelessNoRule, by decide, rfl, by decide⟩

def ruleNoCommentW : DCASRule :=
  ⟨some "Rule 9", "Provide the data", ResponseType.no, none, "DCAS-9"⟩

/-- Counterexample to claim C2 as stated: in the requests derivation of
`src/restud/render.py`, a rule that is not skipped (answer `no`), carries
zero comments and has a non-empty description contributes no request line
at all — the description is never used as a fallback there. -/
theorem C2_counterexample :
    ruleSkipped ruleNoCommentW = false ∧
    ruleNoCommentW.comment = none ∧
    ruleNoCommentW.description = "Provide the data" ∧
    toTemplateRequests [ruleNoCommentW] = .ok [] :=
  ⟨rfl, rfl, rfl, rfl⟩

/-- One `dcas_rules` entry of a TOML report as read by
`src/restud/render_jinja2.py`: a string-keyed dictionary with optional
`answer`, `comments`, `text` and `number` entries (absent keys are `none`).
The rule number is kept as an opaque string. -/
structure TomlRule where
  answer : Option String
  comments : Option (List String)
  text : Option String
  number : Option String
deriving DecidableEq, Repr

/-- One entry of the comments list built by
`ReportRenderer.build_comments_from_dcas`: a dict with `text` and `number`
keys. -/
structure CommentEntry where
  text : String
  number : Option String
deriving DecidableEq, Repr

/-- Helper for `pySplitWS`: walks the characters accumulating the current
token (reversed); whitespace closes the token. -/
def pySplitWSAux : List Char → List Char → List String
  | [], acc => if acc.isEmpty then [] else [String.mk acc.reverse]
  | c :: cs, acc =>
    if c.isWhitespace then
      (if acc.isEmpty then [] else [String.mk acc.reverse]) ++ pySplitWSAux cs []
    else
      pySplitWSAux cs (c :: acc)

/-- Python `str.split()` with no argument: the maximal whitespace-free
tokens of the string, in order, with all whitespace discarded. -/
def pySplitWS (s : String) : List String :=
  pySplitWSAux s.data []

/-- The normalisation `' '.join(str(comment).split())` from
`build_comments_from_dcas` (`src/restud/render_jinja2.py` lines 176, 184):
runs of whitespace collapse to single spaces and outer whitespace is
stripped. -/
def normalizeWS (s : String) : String :=
  String.intercalate " " (pySplitWS s)

/-- The per-rule body of `ReportRenderer.build_comments_from_dcas`
(`src/restud/render_jinja2.py` lines 163-190).  Only `answer == 'yes'` is
skipped: the source's second guard, commented "Skip if answer is na/yes and
no comments", again tests `'yes'` and is unreachable after the first, so no
na-skip happens on this path.  A rule with a truthy `comments` list emits
one entry per comment; otherwise a truthy `text` emits one entry. -/
def buildRuleComments (rule : TomlRule) : List CommentEntry :=
  if rule.answer = some "yes" then []
  else
    match rule.comments with
    | some (c :: cs) => (c :: cs).map (fun comment => ⟨normalizeWS comment, rule.number⟩)
    | _ =>
      match rule.text with
      | some t => if t = "" then [] else [⟨normalizeWS t, rule.number⟩]
      | none => []

/-- `ReportRenderer.build_comments_from_dcas` over the whole rule list. -/
def build_comments_from_dcas (rules : List TomlRule) : List CommentEntry :=
  rules.flatMap buildRuleComments

/-- Claim C2 amended: the description fallback exists only in the Jinja2
comment builder `build_comments_from_dcas`, which, for a rule whose answer
is not `yes` and whose comments are absent or empty, emits the rule's
(whitespace-normalised) `text` field as the single entry when that text is
non-empty; the requests derivation of `src/restud/render.py` has no such
fallback (see the counterexample). -/
theorem C2_text_fallback_jinja (rule : TomlRule)
    (hans : ¬ rule.answer = some "yes")
    (hcom : rule.comments = none ∨ rule.comments = some [])
    (t : String) (ht : rule.text = some t) (hne : ¬ t = "") :
    buildRuleComments rule = [⟨normalizeWS t, rule.number⟩] := by
  unfold buildRuleComments
  rw [if_neg hans, ht]
  rcases hcom with hcom | hcom <;> rw [hcom] <;> simp [hne]

/-- Witness for the amended C2 at a concrete rule: answer `no`, no
comments, multi-line text. -/
theorem C2_text_fallback_jinja_witness :
    buildRuleComments ⟨some "no", none, some "Share  the\ncode", some "4"⟩ =
      [⟨"Share the code", some "4"⟩] := by
  have h := C2_text_fallback_jinja ⟨some "no", none, some "Share  the\ncode", some "4"⟩
    (by decide) (Or.inl rfl) "Share  the\ncode" rfl (by decide)
  rw [h]
  decide

/-- The numbering format `f'{i+1}. {item}'` shared by both `ordered_list`
implementations (the caller passes the 1-based index here). -/
def numberedLine (i : Nat) (item : String) : String :=
  toString i ++ ". " ++ item

/-- The `ordered_list` of `src/restud/render.py` lines 92-104: empty list
renders as `""`; a single item is returned without numbering; otherwise
the items render as numbered lines joined by newlines. -/
def ordered_list : List String → String
  | [] => ""
  | [item] => item
  | items => String.intercalate "\n" (items.enum.map (fun p => numberedLine (p.1 + 1) p.2))

/-- The `ordered_list` of `src/.config/restud/DCAS_scheme.py` lines 107-115:
identical except that it has no single-item case, so a singleton list is
also numbered. -/
def DCAS_scheme_ordered_list : List String → String
  | [] => ""
  | items => String.intercalate "\n" (items.enum.map (fun p => numberedLine (p.1 + 1) p.2))

/-- Specification-shaped rendering of a numbered list: lines
`1. item1` through `N. itemN`, newline-joined, in input order. -/
def numberedLines (items : List String) : String :=
  String.intercalate "\n" (List.zipWith numberedLine (List.range' 1 items.length) items)

theorem enumFrom_map_numberedLine :
    ∀ (l : List String) (i : Nat),
      (List.enumFrom i l).map (fun p => numberedLine (p.1 + 1) p.2) =
        List.zipWith numberedLine (List.range' (i + 1) l.length) l := by
  intro l
  induction l with
  | nil => intro i; rfl
  | cons x xs ih =>
    intro i
    rw [List.length_cons, List.range'_succ]
    simpa [List.enumFrom] using ih (i + 1)

/-- Counterexample to claim C3 as stated: the `ordered_list` copy in
`src/.config/restud/DCAS_scheme.py` (one of the cited implementations)
numbers a singleton list instead of returning the element unchanged. -/
theorem C3_counterexample :
    DCAS_scheme_ordered_list ["x"] = "1. x" ∧
      ¬ DCAS_scheme_ordered_list ["x"] = "x" := by
  refine ⟨rfl, ?_⟩
  decide

/-- Claim C3 amended: the core renderer's `ordered_list`
(`src/restud/render.py`) renders the empty list as the empty string, a
singleton as the bare element, and two or more elements as numbered lines
joined by newlines in input order; the legacy copy in
`src/.config/restud/DCAS_scheme.py` agrees except on singletons, which it
renders as a single numbered line. -/
theorem C3_ordered_list_amended :
    ordered_list [] = "" ∧
    (∀ x, ordered_list [x] = x) ∧
    (∀ a b t, ordered_list (a :: b :: t) = numberedLines (a :: b :: t)) ∧
    DCAS_scheme_ordered_list [] = "" ∧
    (∀ x, DCAS_scheme_ordered_list [x] = "1. " ++ x) ∧
    (∀ a b t, DCAS_scheme_ordered_list (a :: b :: t) = ordered_list (a :: b :: t)) := by
  refine ⟨rfl, fun x => rfl, fun a b t => ?_, rfl, fun x => ?_, fun a b t => rfl⟩
  · show String.intercalate "\n" ((List.enumFrom 0 (a :: b :: t)).map
      (fun p => numberedLine (p.1 + 1) p.2)) = _
    rw [enumFrom_map_numberedLine]
    rfl
  · have h : DCAS_scheme_ordered_list [x] = numberedLine 1 x := rfl
    rw [h]
    rfl

/-- Per-string snippet resolution as performed by
`ReportRenderer.substitute_tags` (`src/restud/render_jinja2.py` lines
111-148): both the `if comment in snippets: snippets[comment] else comment`
branch and the `snippets.get(rec, rec)` comprehensions look the string up
by exact equality and fall back to the string itself. -/
def resolveSnippet (text : String) (snippets : String → Option String) : String :=
  match snippets text with
  | some v => v
  | none => text

/-- Claim C6: snippet resolution is exact-match only — a string that equals
a table key resolves to the table's value, and any other string is returned
unchanged (so a miss never raises and is a no-op). -/
theorem C6_exact_match_resolution (snippets : String → Option String) (x : String) :
    (∀ v, snippets x = some v → resolveSnippet x snippets = v) ∧
    (snippets x = none → resolveSnippet x snippets = x) := by
  constructor
  · intro v hv
    simp [resolveSnippet, hv]
  · intro h
    simp [resolveSnippet, h]

def snippetsW : String → Option String :=
  fun x => if x = "cite_data" then some "Please cite all datasets used." else none

/-- Witness for C6: a key of the concrete table resolves to its value and a
non-key string passes through unchanged. -/
theorem C6_exact_match_resolution_witness :
    resolveSnippet "cite_data" snippetsW = "Please cite all datasets used." ∧
    resolveSnippet "No README found." snippetsW = "No README found." :=
  ⟨(C6_exact_match_resolution snippetsW "cite_data").1 _ rfl,
   (C6_exact_match_resolution snippetsW "No README found.").2 rfl⟩

/-- Fuel-indexed helper for `replaceAll`; the fuel only makes the recursion
structural and never runs out when it starts at the length of the string. -/
def replaceAllAux (pat rep : List Char) : Nat → List Char → List Char
  | _, [] => []
  | 0, s => s
  | f + 1, c :: s =>
    if ¬ pat = [] ∧ pat <+: (c :: s) then
      rep ++ replaceAllAux pat rep f ((c :: s).drop pat.length)
    else
      c :: replaceAllAux pat rep f s

/-- Python `str.replace` on character lists: scans left to right, replaces
every non-overlapping occurrence of `pat`, and resumes after the inserted
replacement.  (Python's special behaviour for an empty pattern — inserting
the replacement at every position — is not modelled; every pattern used by
the embedded code is a fixed non-empty phrase, and this function leaves the
string unchanged for an empty pattern.) -/
def replaceAll (pat rep s : List Char) : List Char :=
  replaceAllAux pat rep s.length s

/-- Python `str.replace(pat, rep)` lifted to `String`. -/
def pyReplace (s pat rep : String) : String :=
  String.mk (replaceAll pat.data rep.data s.data)

theorem replaceAllAux_fuel (pat rep : List Char) :
    ∀ f₁ f₂ s, s.length ≤ f₁ → s.length ≤ f₂ →
      replaceAllAux pat rep f₁ s = replaceAllAux pat rep f₂ s := by
  intro f₁
  induction f₁ with
  | zero =>
    intro f₂ s h1 _
    have hs : s = [] := List.length_eq_zero.mp (Nat.le_zero.mp h1)
    subst hs
    cases f₂ <;> rfl
  | succ f ih =>
    intro f₂ s h1 h2
    cases s with
    | nil => cases f₂ <;> rfl
    | cons c s =>
      cases f₂ with
      | zero => simp at h2
      | succ g =>
        simp only [replaceAllAux]
        by_cases hc : ¬ pat = [] ∧ pat <+: (c :: s)
        · rw [if_pos hc, if_pos hc]
          have hp : 0 < pat.length := List.length_pos.mpr hc.1
          have hlen : ((c :: s).drop pat.length).length ≤ f ∧
              ((c :: s).drop pat.length).length ≤ g := by
            simp only [List.length_drop, List.length_cons]
            simp only [List.length_cons] at h1 h2
            omega
          rw [ih _ _ hlen.1 hlen.2]
        · rw [if_neg hc, if_neg hc]
          have hf : s.length ≤ f := by simpa using Nat.le_of_succ_le_succ h1
          have hg : s.length ≤ g := by simpa using Nat.le_of_succ_le_succ h2
          rw [ih _ _ hf hg]

theorem replaceAll_nil (pat rep : List Char) : replaceAll pat rep [] = [] := rfl

theorem replaceAll_cons (pat rep : List Char) (c : Char) (s : List Char) :
    replaceAll pat rep (c :: s) =
      if ¬ pat = [] ∧ pat <+: (c :: s) then
        rep ++ replaceAll pat rep ((c :: s).drop pat.length)
      else
        c :: replaceAll pat rep s := by
  show replaceAllAux pat rep (s.length + 1) (c :: s) = _
  simp only [replaceAllAux]
  by_cases hc : ¬ pat = [] ∧ pat <+: (c :: s)
  · rw [if_pos hc, if_pos hc]
    have hp : 0 < pat.length := List.length_pos.mpr hc.1
    unfold replaceAll
    rw [replaceAllAux_fuel pat rep s.length ((c :: s).drop pat.length).length]
    · simp only [List.length_drop, List.length_cons]
      omega
    · exact Nat.le_refl _
  · rw [if_neg hc, if_neg hc]
    rfl

theorem replaceAll_of_no_occurrence (pat rep : List Char) :
    ∀ s : List Char, ¬ pat <:+: s → replaceAll pat rep s = s := by
  intro s
  induction s with
  | nil => intro _; rfl
  | cons c s ih =>
    intro h
    rw [replaceAll_cons, if_neg (fun hc => h hc.2.isInfix)]
    rw [ih (fun hs => h (List.infix_cons hs))]

theorem replaceAll_single (pat rep post : List Char) (hpat : ¬ pat = []) :
    ∀ pre : List Char,
      (∀ i, i < pre.length → ¬ pat <+: ((pre ++ pat ++ post).drop i)) →
      replaceAll pat rep (pre ++ pat ++ post) = pre ++ rep ++ replaceAll pat rep post := by
  intro pre
  induction pre with
  | nil =>
    intro _
    rcases hq : pat ++ post with _ | ⟨qc, qt⟩
    · rcases List.append_eq_nil.mp hq with ⟨h1, _⟩
      exact absurd h1 hpat
    · show replaceAll pat rep (pat ++ post) = [] ++ rep ++ replaceAll pat rep post
      rw [hq, replaceAll_cons, if_pos ⟨hpat, hq ▸ List.prefix_append pat post⟩, ← hq,
        List.drop_left]
      rfl
  | cons c pre ih =>
    intro hocc
    have h0 : ¬ pat <+: (c :: (pre ++ pat ++ post)) := by
      have h := hocc 0 (by simp)
      simpa using h
    show replaceAll pat rep (c :: (pre ++ pat ++ post)) = _
    rw [replaceAll_cons, if_neg (fun hc => h0 hc.2)]
    rw [ih (fun i hi => by
      have h := hocc (i + 1) (by simpa using Nat.succ_lt_succ hi)
      simpa [List.drop_succ_cons] using h)]
    rfl

def reqPhrasePlural : String := "please make the following changes:"

def reqPhraseSingular : String := "please make the following change:"

def recPhrasePlural : String := "please consider the following recommendations"

def recPhraseSingular : String := "please consider the following recommendation"

/-- The count taken by `singulars_and_plurals` (`src/restud/render.py`
lines 115-125): the length when the value is a list, and the initial
default 1 when it is not (`isinstance(..., list)` fails). -/
def pyCount : List String ⊕ String → Nat
  | .inl items => items.length
  | .inr _ => 1

/-- The `singulars_and_plurals` of `src/restud/render.py` lines 115-136:
when the requests count is exactly 1, the fixed plural requests phrase is
replaced by its singular variant; independently, when the recommendations
count is exactly 1, the fixed plural recommendations phrase is replaced by
its singular variant. -/
def singulars_and_plurals (template : String)
    (requests recommendations : List String ⊕ String) : String :=
  let template1 :=
    if pyCount requests = 1 then pyReplace template reqPhrasePlural reqPhraseSingular
    else template
  if pyCount recommendations = 1 then pyReplace template1 recPhrasePlural recPhraseSingular
  else template1

/-- Claim C4: the singular/plural adjustment replaces the fixed requests
boilerplate phrase with its singular variant exactly when the derived
requests list has length 1, and likewise for the recommendations phrase;
for lengths 0 or at least 2 the template text is left unchanged. -/
theorem C4_singular_plural_adjustment (template : String) (rs cs : List String) :
    (¬ rs.length = 1 → ¬ cs.length = 1 →
      singulars_and_plurals template (.inl rs) (.inl cs) = template) ∧
    (rs.length = 1 → ¬ cs.length = 1 →
      singulars_and_plurals template (.inl rs) (.inl cs) =
        pyReplace template reqPhrasePlural reqPhraseSingular) ∧
    (¬ rs.length = 1 → cs.length = 1 →
      singulars_and_plurals template (.inl rs) (.inl cs) =
        pyReplace template recPhrasePlural recPhraseSingular) ∧
    (rs.length = 1 → cs.length = 1 →
      singulars_and_plurals template (.inl rs) (.inl cs) =
        pyReplace (pyReplace template reqPhrasePlural reqPhraseSingular)
          recPhrasePlural recPhraseSingular) := by
  refine ⟨fun h1 h2 => ?_, fun h1 h2 => ?_, fun h1 h2 => ?_, fun h1 h2 => ?_⟩ <;>
    simp [singulars_and_plurals, pyCount, h1, h2]

def templateW : String :=
  "Dear author, please make the following changes:\n\n{requests}\n\nIn addition, please consider the following recommendations to ease reproducibility:\n\n{recommendations}\n\n"

/-- Witness for C4 at a concrete template: one request and zero
recommendations rewrite only the requests phrase to its singular form. -/
theorem C4_singular_plural_adjustment_witness :
    singulars_and_plurals templateW (.inl ["add a README"]) (.inl []) =
      pyReplace templateW reqPhrasePlural reqPhraseSingular ∧
    pyReplace templateW reqPhrasePlural reqPhraseSingular =
      "Dear author, please make the following change:\n\n{requests}\n\nIn addition, please consider the following recommendations to ease reproducibility:\n\n{recommendations}\n\n" :=
  ⟨(C4_singular_plural_adjustment templateW ["add a README"] []).2.1 rfl (by decide),
   by decide⟩

/-- The fixed template fragment removed by `generate_report`
(`src/restud/render.py` lines 160-165) when the recommendations are empty. -/
def recSectionFragment : String :=
  "In addition, please consider the following recommendations to ease reproducibility:\n\n{recommendations}\n\n"

/-- Python truthiness of the recommendations value, as tested by
`if not content.get('recommendations') or len(...) == 0:`. -/
def pyTruthy : List String ⊕ String → Bool
  | .inl items => !items.isEmpty
  | .inr s => !(s == "")

/-- The recommendations-elision step of `generate_report`
(`src/restud/render.py` lines 160-165): when the recommendations value is
falsy or empty, the fixed recommendations fragment is replaced by the empty
string; otherwise the template is left as is. -/
def elideRecommendations (template : String)
    (recommendations : List String ⊕ String) : String :=
  if pyTruthy recommendations then template
  else pyReplace template recSectionFragment ""

/-- Claim C5: with an empty derived recommendations list the fixed
recommendations fragment is removed whole from the template (stated for a
template containing the fragment exactly once: no occurrence starts before
the given prefix ends and none lies in the suffix), and with a non-empty
list the template is preserved untouched. -/
theorem C5_recommendations_elision (pre post : String) (recs : List String ⊕ String) :
    (recs = .inl [] →
      (∀ i, i < pre.length →
        ¬ recSectionFragment.data <+: ((pre ++ recSectionFragment ++ post).data.drop i)) →
      ¬ recSectionFragment.data <:+: post.data →
      elideRecommendations (pre ++ recSectionFragment ++ post) recs = pre ++ post) ∧
    (pyTruthy recs = true → ∀ template, elideRecommendations template recs = template) := by
  constructor
  · rintro rfl hocc hpost
    show (if pyTruthy (.inl []) then _ else _) = _
    rw [if_neg (by simp [pyTruthy])]
    show String.mk (replaceAll recSectionFragment.data "".data
      (pre ++ recSectionFragment ++ post).data) = _
    have hdata : (pre ++ recSectionFragment ++ post).data =
        pre.data ++ recSectionFragment.data ++ post.data := by
      simp [String.data_append]
    rw [hdata]
    rw [replaceAll_single recSectionFragment.data "".data post.data (by decide) pre.data
      (by rw [← hdata]; exact hocc)]
    rw [replaceAll_of_no_occurrence recSectionFragment.data "".data post.data hpost]
    show String.mk (pre.data ++ [] ++ post.data) = pre ++ post
    simp [← String.data_append]
  · intro htruthy template
    unfold elideRecommendations
    rw [if_pos htruthy]

/-- Witness for C5: the fragment sitting between a concrete header and
footer is removed when the recommendations list is empty, and an unrelated
template is preserved when the list is non-empty. -/
theorem C5_recommendations_elision_witness :
    elideRecommendations ("Intro.\n\n" ++ recSectionFragment ++ "Sincerely\n") (.inl []) =
      "Intro.\n\n" ++ "Sincerely\n" ∧
    elideRecommendations templateW (.inl ["be nice"]) = templateW :=
  ⟨(C5_recommendations_elision "Intro.\n\n" "Sincerely\n" (.inl [])).1 rfl
      (by decide) (by decide),
   (C5_recommendations_elision "" "" (.inl ["be nice"])).2 (by decide) templateW⟩

/-- One token of a parsed format template: a literal character or a named
placeholder (field reference). -/
inductive FmtTok where
  | lit (c : Char)
  | field (ref : String)
deriving DecidableEq, Repr

/-- Errors of Python `str.format`: `missingField` is the `KeyError` raised
for a placeholder with no matching keyword argument (the specification's
`RenderError`); `malformed` is the `ValueError` raised for bad template
syntax (single braces, unterminated or nested fields). -/
inductive FmtErr where
  | missingField (ref : String)
  | malformed
deriving DecidableEq, Repr

/-- Scanner for Python `str.format` templates restricted to plain named
fields (`\x7bname\x7d`, with `\x7b\x7b`/`\x7d\x7d` as escaped braces), the
only placeholder shape the repository's templates use; conversion and
format-spec suffixes are not modelled.  The first argument is `none` in
literal text and `some acc` inside a field, `acc` holding the reversed
name read so far. -/
def tokenizeAux : Option (List Char) → List Char → Option (List FmtTok)
  | some _, [] => none
  | some acc, '}' :: rest =>
    (tokenizeAux none rest).map (fun ts => .field (String.mk acc.reverse) :: ts)
  | some _, '{' :: _ => none
  | some acc, c :: rest => tokenizeAux (some (c :: acc)) rest
  | none, [] => some []
  | none, '{' :: '{' :: rest => (tokenizeAux none rest).map (fun ts => .lit '{' :: ts)
  | none, '{' :: rest => tokenizeAux (some []) rest
  | none, '}' :: '}' :: rest => (tokenizeAux none rest).map (fun ts => .lit '}' :: ts)
  | none, '}' :: _ => none
  | none, c :: rest => (tokenizeAux none rest).map (fun ts => .lit c :: ts)

/-- Parses a format template into tokens; `none` models the `ValueError`
Python raises on malformed templates. -/
def tokenize (l : List Char) : Option (List FmtTok) :=
  tokenizeAux none l

/-- Substitutes a token list against the derived view: literal characters
pass through, a placeholder found in the view is replaced by its value, and
a placeholder absent from the view raises (`KeyError`); by construction no
partially-substituted output escapes. -/
def substToks (view : String → Option String) : List FmtTok → Except FmtErr (List Char)
  | [] => .ok []
  | .lit c :: ts => (substToks view ts).map (fun l => c :: l)
  | .field ref :: ts =>
    match view ref with
    | some v => (substToks view ts).map (fun l => v.data ++ l)
    | none => .error (.missingField ref)

/-- The `template_text.format(**parsed_content)` call of `generate_report`
(`src/restud/render.py` line 171): parse the template, then substitute
every placeholder from the derived view. -/
def pyFormat (template : String) (view : String → Option String) : Except FmtErr String :=
  match tokenize template.data with
  | some toks => (substToks view toks).map String.mk
  | none => .error .malformed

/-- The placeholder names referenced by a token list, in order. -/
def tokenRefs : List FmtTok → List String
  | [] => []
  | .field ref :: ts => ref :: tokenRefs ts
  | .lit _ :: ts => tokenRefs ts

theorem except_map_error_iff {ε α β : Type} (f : α → β) (x : Except ε α) (e : ε) :
    x.map f = Except.error e ↔ x = Except.error e := by
  cases x <;> simp [Except.map]

theorem substToks_missing_iff (view : String → Option String) :
    ∀ toks : List FmtTok,
      (∃ r, substToks view toks = .error (.missingField r)) ↔
        ∃ ref ∈ tokenRefs toks, view ref = none := by
  intro toks
  induction toks with
  | nil => simp [substToks, tokenRefs]
  | cons t ts ih =>
    cases t with
    | lit c =>
      simp only [substToks, tokenRefs]
      rw [← ih]
      constructor
      · rintro ⟨r, hr⟩
        exact ⟨r, (except_map_error_iff _ _ _).mp hr⟩
      · rintro ⟨r, hr⟩
        exact ⟨r, (except_map_error_iff _ _ _).mpr hr⟩
    | field ref =>
      cases hv : view ref with
      | some v =>
        simp only [substToks, hv]
        have htr : tokenRefs (.field ref :: ts) = ref :: tokenRefs ts := rfl
        rw [htr]
        constructor
        · rintro ⟨r, hr⟩
          rcases ih.mp ⟨r, (except_map_error_iff _ _ _).mp hr⟩ with ⟨r2, hmem, hnone⟩
          exact ⟨r2, List.mem_cons_of_mem _ hmem, hnone⟩
        · rintro ⟨r2, hmem, hnone⟩
          rcases List.mem_cons.mp hmem with rfl | hmem
          · rw [hv] at hnone
            cases hnone
          · rcases ih.mpr ⟨r2, hmem, hnone⟩ with ⟨r, hr⟩
            exact ⟨r, (except_map_error_iff _ _ _).mpr hr⟩
      | none =>
        simp only [substToks, hv]
        have htr : tokenRefs (.field ref :: ts) = ref :: tokenRefs ts := rfl
        rw [htr]
        exact ⟨fun _ => ⟨ref, List.mem_cons_self _ _, hv⟩, fun _ => ⟨ref, rfl⟩⟩

/-- Claim C7: for a (well-formed) template and derived view, rendering
raises the fatal placeholder error (the `KeyError` Python's `format` raises,
the specification's `RenderError`) precisely when the template contains a
named placeholder with no corresponding field of the view; since the result
is an `Except`, no output — in particular no partially-substituted output —
is produced in that case. -/
theorem C7_unresolved_placeholder_fatal (template : String)
    (view : String → Option String) (toks : List FmtTok)
    (h : tokenize template.data = some toks) :
    (∃ r, pyFormat template view = .error (.missingField r)) ↔
      ∃ ref ∈ tokenRefs toks, view ref = none := by
  unfold pyFormat
  rw [h, ← substToks_missing_iff view toks]
  show (∃ r, (substToks view toks).map String.mk = .error (.missingField r)) ↔ _
  constructor
  · rintro ⟨r, hr⟩
    exact ⟨r, (except_map_error_iff _ _ _).mp hr⟩
  · rintro ⟨r, hr⟩
    exact ⟨r, (except_map_error_iff _ _ _).mpr hr⟩

def viewW : String → Option String :=
  fun ref => if ref = "salutation" then some "Dear Dr. Doe," else none

/-- Witness for C7: a template referencing `salutation` and `requests`
against a view that provides only `salutation` raises the placeholder
error for `requests`. -/
theorem C7_unresolved_placeholder_fatal_witness :
    ∃ r, pyFormat "{salutation} {requests}" viewW = .error (.missingField r) :=
  (C7_unresolved_placeholder_fatal "{salutation} {requests}" viewW
      [.field "salutation", .lit ' ', .field "requests"] rfl).mpr
    ⟨"requests", by simp [tokenRefs], rfl⟩

/-- A raw `DCAS_rules` entry as it comes out of the YAML document, before
pydantic validation: every field may be absent (`none`). -/
structure RawRule where
  name : Option String
  description : Option String
  answer : Option String
  comment : PyComment
  dcas_reference : Option String
deriving DecidableEq, Repr

/-- Coercion of the raw answer string into the `ResponseType` enum, as
pydantic performs for the `answer: ResponseType` field; any other string is
a validation error. -/
def parseResponse : String → Option ResponseType
  | "yes" => some ResponseType.yes
  | "no" => some ResponseType.no
  | "maybe" => some ResponseType.maybe
  | "na" => some ResponseType.na
  | _ => none

/-- Validation of a raw rule against `DCASRuleItemV2`
(`src/restud/render.py` lines 16-20): requires `description`, a
recognised `answer` and `dcas_reference`; the resulting object has no
`name` attribute. -/
def validateRuleV2 (r : RawRule) : Option DCASRule :=
  match r.description, r.answer, r.dcas_reference with
  | some d, some a, some ref =>
    (parseResponse a).map (fun rt => ⟨none, d, rt, r.comment, ref⟩)
  | _, _, _ => none

/-- Validation of a raw rule against `DCASRuleItemV3`
(`src/restud/render.py` lines 22-27): additionally requires a `name`
value, which may be any string, the empty string included. -/
def validateRuleV3 (r : RawRule) : Option DCASRule :=
  match r.name, r.description, r.answer, r.dcas_reference with
  | some n, some d, some a, some ref =>
    (parseResponse a).map (fun rt => ⟨some n, d, rt, r.comment, ref⟩)
  | _, _, _, _ => none

/-- The `Union[DCASRuleItemV2, DCASRuleItemV3]` member validation under
pydantic's smart union: when both members accept the input, the V3 shape
wins (it matches the `name` key the V2 model would discard), and a rule
without a `name` key can only validate as V2.  This is applied to every
rule of every document; the document's `version` value plays no part. -/
def validateRuleUnion (r : RawRule) : Option DCASRule :=
  match validateRuleV3 r with
  | some rule => some rule
  | none => validateRuleV2 r

/-- A raw report document (the YAML mapping handed to
`ReportTemplate.from_dict`), before pydantic validation. -/
structure RawDoc where
  version : Option Int
  author : Option String
  salutation : Option String
  email : Option String
  title : Option String
  manuscript_id : Option String
  praise : Option String
  DCAS_rules : Option (List RawRule)
  recommendations : Option (List String ⊕ String)
  tags : Option (List String)
deriving DecidableEq, Repr

/-- The validated `ReportTemplate` model of `src/restud/render.py` lines
29-51. -/
structure ReportDoc where
  version : Int
  author : String
  salutation : String
  email : String
  title : String
  manuscript_id : Option String
  praise : Option String
  DCAS_rules : List DCASRule
  recommendations : List String ⊕ String
  tags : List String
deriving DecidableEq, Repr

/-- Validation of a raw document against `ReportTemplate`
(`ReportTemplate.from_dict`, i.e. `model_validate`): the required fields
`version`, `author`, `salutation`, `email`, `title` and `tags` must be
present, every rule must validate against the V2/V3 union, and the
`ensure_list` validator turns an absent or `None` `DCAS_rules` or
`recommendations` into an empty list.  No check depends on the document's
version value. -/
def validateDoc (d : RawDoc) : Option ReportDoc :=
  match d.version, d.author, d.salutation, d.email, d.title, d.tags with
  | some v, some a, some s, some e, some t, some tags =>
    ((d.DCAS_rules.getD []).mapM validateRuleUnion).map (fun rules =>
      ⟨v, a, s, e, t, d.manuscript_id, d.praise, rules,
        d.recommendations.getD (.inl []), tags⟩)
  | _, _, _, _, _, _ => none

def rawNoNameRule : RawRule :=
  ⟨none, some "Data availability statement", some "no", none, some "DCAS-2"⟩

def rawV3Doc : RawDoc :=
  ⟨some 3, some "Author", some "Dear Dr. Doe,", some "editor@example.org",
    some "A Study", none, none, some [rawNoNameRule], none, some []⟩

/-- Counterexample to claim C8 as stated: a document declaring version 3
whose only rule has no `name` field parses successfully (the rule falls
back to the V2 shape); no error of any kind is raised at parse time. -/
theorem C8_counterexample :
    rawV3Doc.version = some 3 ∧
    rawNoNameRule.name = none ∧
    validateDoc rawV3Doc =
      some ⟨3, "Author", "Dear Dr. Doe,", "editor@example.org", "A Study",
        none, none,
        [⟨none, "Data availability statement", ResponseType.no, none, "DCAS-2"⟩],
        .inl [], []⟩ :=
  ⟨rfl, rfl, rfl⟩

/-- Claim C8 amended: parsing never dispatches on the document's version —
each rule validates against the V2/V3 union independently, so whether a
rule validates at all never depends on its `name` value (a nameless rule is
accepted as a V2 item, and even an empty-string name is accepted for V3);
no parse error arises from a missing name for any declared version.  A
missing name only surfaces later, as the derivation failure of claim
C10. -/
theorem C8_name_never_required (r : RawRule) :
    (validateRuleUnion r).isSome = (validateRuleV2 r).isSome ∧
    (r.name = none → validateRuleUnion r = validateRuleV2 r) := by
  constructor
  · unfold validateRuleUnion validateRuleV3 validateRuleV2
    rcases hn : r.name with _ | n <;>
      rcases hd : r.description with _ | d <;>
        rcases ha : r.answer with _ | a <;>
          rcases hr : r.dcas_reference with _ | ref <;>
            simp <;> cases parseResponse a <;> simp
  · intro hn
    unfold validateRuleUnion validateRuleV3
    rw [hn]

/-- Witness for the amended C8 at a concrete nameless rule. -/
theorem C8_name_never_required_witness :
    rawNoNameRule.name = none ∧
    validateRuleUnion rawNoNameRule = validateRuleV2 rawNoNameRule :=
  ⟨rfl, (C8_name_never_required rawNoNameRule).2 rfl⟩

/-- The two dialects `generate_report` distinguishes
(`src/restud/render.py` lines 151-171): the strict pydantic-validated path
for version 2 and greater, and the legacy direct-substitution path
otherwise. -/
inductive SchemaDialect where
  | legacy
  | strict
deriving DecidableEq, Repr

/-- The dialect dispatch `if content.get("version") >= 2:` of
`generate_report` (`src/restud/render.py` line 151).  `content.get`
without a default returns `None` for an absent key, and `None >= 2` raises
`TypeError` in Python 3, so a document with no `version` field makes
`generate_report` raise instead of falling back to the legacy dialect. -/
def versionDispatch : Option Int → Except PyExn SchemaDialect
  | none => .error .typeError
  | some v => .ok (if 2 ≤ v then .strict else .legacy)

/-- Claim C9 (code bug): a present version below 2 selects the legacy
dialect and a version of 2 or more selects the strict dialect, but an
absent version field does not fall back to the legacy dialect — the
comparison `None >= 2` raises `TypeError`, contradicting the claim (and
`cli.py`'s own `content.get('version', 1)` convention). -/
theorem C9_version_dispatch (v : Int) :
    versionDispatch none = .error PyExn.typeError ∧
    (v < 2 → versionDispatch (some v) = .ok SchemaDialect.legacy) ∧
    (2 ≤ v → versionDispatch (some v) = .ok SchemaDialect.strict) := by
  refine ⟨rfl, fun h => ?_, fun h => ?_⟩ <;>
    simp [versionDispatch, h]

/-- Witness for C9: the dispatch at the concrete versions 1 and 2, and the
raise at an absent version. -/
theorem C9_version_dispatch_witness :
    versionDispatch none = .error PyExn.typeError ∧
    versionDispatch (some 1) = .ok SchemaDialect.legacy ∧
    versionDispatch (some 2) = .ok SchemaDialect.strict :=
  ⟨(C9_version_dispatch 1).1, (C9_version_dispatch 1).2.1 (by decide),
   (C9_version_dispatch 2).2.2 (by decide)⟩

end Restud
